import Mathlib

/-!
Verification of the stereodemo repository (stereo-depth demo application).

We shallowly embed the Python source files `stereodemo/methods.py`,
`stereodemo/main.py` and `stereodemo/raft_stereo.py` into Lean.

Conventions of the embedding:
* Python `int` is `Int`; Python `//` and `%` on ints (floor division,
  non-negative remainder for positive divisor) match the Lean `Int.ediv`
  and `Int.emod`, which are the `/` and `%` instances on `Int`.
* Python floats appearing in the wrapper arithmetic are modelled with `ℚ`
  (the wrappers only divide, multiply and compare; no rounding behaviour
  of IEEE floats is relied upon by any claim).
* numpy images / disparity maps are modelled as a shape (rows, cols)
  together with a total pixel function.
* The external OpenCV / torch calls are taken as abstract parameters of
  the functions that invoke them, so that the glue logic of the repository
  (parameter plumbing, unit conversion, resizing decisions) is what the
  theorems speak about.
-/

namespace Stereodemo

/-! ## methods.py: parameters -/

/-- `IntParameter` dataclass from `methods.py`: a description, a current
value, bounds, and a validator `to_valid` applied by `set_value`. -/
structure IntParameter where
  description : String
  value : Int
  min : Int
  max : Int
  to_valid : Int → Int := fun x => x
  deriving Inhabited

/-- `IntParameter.set_value`: stores `to_valid x` as the new value. -/
def IntParameter.set_value (p : IntParameter) (x : Int) : IntParameter :=
  { p with value := p.to_valid x }

/-- `EnumParameter` dataclass from `methods.py`. -/
structure EnumParameter where
  description : String
  index : Nat
  values : List String
  deriving Inhabited

/-- `EnumParameter.set_index`. -/
def EnumParameter.set_index (p : EnumParameter) (idx : Nat) : EnumParameter :=
  { p with index := idx }

/-- `EnumParameter.value` property: `values[index]` (fallible indexing,
as in Python). -/
def EnumParameter.getValue (p : EnumParameter) : Option String :=
  p.values.get? p.index

/-- `odd_only(x)`: `x if x % 2 == 1 else x+1`. -/
def odd_only (x : Int) : Int :=
  if x % 2 = 1 then x else x + 1

/-- `multiple_of_16(x)`: `max(16, x//16 * 16)`. -/
def multiple_of_16 (x : Int) : Int :=
  max 16 (x / 16 * 16)

/-- The parameter dictionary of a method: an association list from the
parameter name to the `IntParameter` (enum parameters are kept separately
where needed).  Python dict lookup `d[k]` is fallible lookup. -/
def lookupParam (params : List (String × IntParameter)) (key : String) :
    Option IntParameter :=
  (params.find? (fun kv => kv.1 = key)).map (·.2)

/-- The default `Num Disparities` parameter of `StereoBMMethod`, with the
`multiple_of_16` validator. -/
def bmNumDisparitiesParam : IntParameter :=
  { description := "Number of disparities (pixels)", value := 64,
    min := 16, max := 256, to_valid := multiple_of_16 }

/-- The default `Block Size` parameter of `StereoBMMethod`, with the
`odd_only` validator. -/
def bmBlockSizeParam : IntParameter :=
  { description := "Kernel size for block matching (odd)", value := 9,
    min := 3, max := 63, to_valid := odd_only }

/-- The default `PreFilterSize` parameter of `StereoBMMethod`, with the
`odd_only` validator. -/
def bmPreFilterSizeParam : IntParameter :=
  { description := "Pre-filter size (odd)", value := 9, min := 5,
    max := 255, to_valid := odd_only }

/-- `StereoBMMethod.reset_defaults`: the nine `IntParameter`s installed in
the parameter dictionary (defaults from the OpenCV stereo_match sample). -/
def stereoBMDefaults : List (String × IntParameter) :=
  [ ("Num Disparities", bmNumDisparitiesParam),
    ("Block Size", bmBlockSizeParam),
    ("TextureThreshold",
      { description := "Minimum SAD to consider the texture sufficient",
        value := 10, min := 0, max := 100 }),
    ("Uniqueness Ratio",
      { description := "How unique the match each for each pixel",
        value := 15, min := 0, max := 100 }),
    ("SpeckleWindowSize",
      { description := "Speckle window size in pixels (filter small objects). 0 to disable.",
        value := 100, min := 0, max := 1000 }),
    ("SpeckleRange",
      { description := "Speckle range (max diff within a window)",
        value := 32, min := 0, max := 64 }),
    ("Disp12MaxDiff",
      { description := "Maximum allowable difference in the right-left check",
        value := 1, min := 0, max := 64 }),
    ("PreFilterCap",
      { description := "Max pre-filter output", value := 31, min := 1,
        max := 63 }),
    ("PreFilterSize", bmPreFilterSizeParam) ]

/-! ## Images and maps -/

/-- A numpy 2-D array: a shape `(rows, cols)` and a total pixel function.
Only pixels with `i < rows`, `j < cols` are meaningful. -/
structure Mat (α : Type) where
  rows : Nat
  cols : Nat
  data : Nat → Nat → α

/-- Elementwise multiplication by a scalar (`m *= s` on a numpy array). -/
def Mat.scale (m : Mat ℚ) (s : ℚ) : Mat ℚ :=
  { m with data := fun i j => m.data i j * s }

/-- Model of `cv2.resize` to destination size `(dcols, drows)`:
nearest-neighbour sampling at proportionally scaled coordinates.  The
repository code only relies on the library contract that the result has
exactly the requested shape. -/
def cvResize (m : Mat ℚ) (dcols drows : Nat) : Mat ℚ :=
  { rows := drows, cols := dcols,
    data := fun i j => m.data (i * m.rows / drows) (j * m.cols / dcols) }

/-! ## methods.py: StereoBM and StereoSGBM wrappers -/

/-- The nine numeric knobs `StereoBMMethod.compute_disparity` configures on
the `cv2.StereoBM` object: two at creation (`numDisparities`, `blockSize`)
and seven through setters. -/
structure StereoBMConfig where
  numDisparities : Int
  blockSize : Int
  textureThreshold : Int
  uniquenessRatio : Int
  speckleWindowSize : Int
  speckleRange : Int
  disp12MaxDiff : Int
  preFilterCap : Int
  preFilterSize : Int

/-- The configuration phase of `StereoBMMethod.compute_disparity`
(lines 82-93 of `methods.py`): read each knob from the parameter
dictionary, bumping an even block size by one, and install all nine on the
block matcher.  Dictionary lookups are fallible, as in Python. -/
def StereoBMMethod.mkConfig (params : List (String × IntParameter)) :
    Option StereoBMConfig := do
  let pBS ← lookupParam params "Block Size"
  let block_size := if pBS.value % 2 = 0 then pBS.value + 1 else pBS.value
  let pND ← lookupParam params "Num Disparities"
  let pTT ← lookupParam params "TextureThreshold"
  let pUR ← lookupParam params "Uniqueness Ratio"
  let pSWS ← lookupParam params "SpeckleWindowSize"
  let pSR ← lookupParam params "SpeckleRange"
  let pD12 ← lookupParam params "Disp12MaxDiff"
  let pPFC ← lookupParam params "PreFilterCap"
  let pPFS ← lookupParam params "PreFilterSize"
  pure { numDisparities := pND.value, blockSize := block_size,
         textureThreshold := pTT.value, uniquenessRatio := pUR.value,
         speckleWindowSize := pSWS.value, speckleRange := pSR.value,
         disp12MaxDiff := pD12.value, preFilterCap := pPFC.value,
         preFilterSize := pPFS.value }

/-- `StereoBMMethod.compute_disparity`, parametric over the external
OpenCV calls: `cvtColorBGR2GRAY` models `cv2.cvtColor(..., COLOR_BGR2GRAY)`
and `stereoBMCompute` models `cv2.StereoBM.compute` on a matcher carrying
the given configuration, returning the raw fixed-point integer disparity
(OpenCV returns 16x the disparity in pixels).  The wrapper divides the raw
output elementwise by `16.0`. -/
def StereoBMMethod.compute_disparity {Img : Type}
    (cvtColorBGR2GRAY : Img → Img)
    (stereoBMCompute : StereoBMConfig → Img → Img → Mat Int)
    (params : List (String × IntParameter))
    (left_image right_image : Img) : Option (Mat ℚ) := do
  let cfg ← StereoBMMethod.mkConfig params
  let gray_left := cvtColorBGR2GRAY left_image
  let gray_right := cvtColorBGR2GRAY right_image
  let raw := stereoBMCompute cfg gray_left gray_right
  pure { rows := raw.rows, cols := raw.cols,
         data := fun i j => (raw.data i j : ℚ) / 16 }

/-- The ten knobs `StereoSGBMMethod.compute_disparity` configures on the
`cv2.StereoSGBM` object. -/
structure StereoSGBMConfig where
  numDisparities : Int
  blockSize : Int
  mode : Nat
  p1 : Int
  p2 : Int
  preFilterCap : Int
  uniquenessRatio : Int
  speckleWindowSize : Int
  speckleRange : Int
  disp12MaxDiff : Int

/-- `StereoSGBMMethod.reset_defaults`: the eight `IntParameter`s
(the `Mode` enum parameter is kept separately). -/
def stereoSGBMDefaults : List (String × IntParameter) :=
  [ ("Num Disparities",
      { description := "Number of disparities (pixels)", value := 64,
        min := 2, max := 256 }),
    ("Block Size",
      { description := "Kernel size for block matching (odd)", value := 3,
        min := 3, max := 63, to_valid := odd_only }),
    ("P1",
      { description := "Penalty Cost (default=8*NChannels*BlockSize)",
        value := 8 * 1 * 3 * 3, min := 0, max := 2000 }),
    ("P2",
      { description := "Penalty Cost. Must be > P1 (default=32*NChannels*BlockSize).",
        value := 32 * 1 * 3 * 3, min := 0, max := 2000 }),
    ("Uniqueness Ratio",
      { description := "How unique the match each for each pixel",
        value := 10, min := 0, max := 100 }),
    ("SpeckleWindowSize",
      { description := "Speckle window size in pixels (filter small objects). 0 to disable.",
        value := 100, min := 0, max := 1000 }),
    ("SpeckleRange",
      { description := "Speckle range (max diff within a window)",
        value := 32, min := 0, max := 64 }),
    ("Disp12MaxDiff",
      { description := "Maximum allowable difference in the right-left check",
        value := 1, min := 0, max := 64 }),
    ("PreFilterCap",
      { description := "Max pre-filter output", value := 63, min := 1,
        max := 128 }) ]

/-- The `Mode` enum parameter of `StereoSGBMMethod.reset_defaults`. -/
def stereoSGBMModeDefault : EnumParameter :=
  { description := "Set it to StereoSGBM MODE_HH to run the full-scale two-pass dynamic programming algorithm.",
    index := 0,
    values := ["MODE_SGBM", "MODE_HH", "MODE_SGBM_3WAY", "MODE_HH4"] }

/-- The configuration phase of `StereoSGBMMethod.compute_disparity`
(lines 131-141 of `methods.py`). -/
def StereoSGBMMethod.mkConfig (params : List (String × IntParameter))
    (modeParam : EnumParameter) : Option StereoSGBMConfig := do
  let pND ← lookupParam params "Num Disparities"
  let pBS ← lookupParam params "Block Size"
  let pP1 ← lookupParam params "P1"
  let pP2 ← lookupParam params "P2"
  let pPFC ← lookupParam params "PreFilterCap"
  let pUR ← lookupParam params "Uniqueness Ratio"
  let pSWS ← lookupParam params "SpeckleWindowSize"
  let pSR ← lookupParam params "SpeckleRange"
  let pD12 ← lookupParam params "Disp12MaxDiff"
  pure { numDisparities := pND.value, blockSize := pBS.value,
         mode := modeParam.index, p1 := pP1.value, p2 := pP2.value,
         preFilterCap := pPFC.value, uniquenessRatio := pUR.value,
         speckleWindowSize := pSWS.value, speckleRange := pSR.value,
         disp12MaxDiff := pD12.value }

/-- `StereoSGBMMethod.compute_disparity`, parametric over the external
OpenCV calls, with the same fixed-point to pixel conversion: the raw
integer output is divided elementwise by `16.0`. -/
def StereoSGBMMethod.compute_disparity {Img : Type}
    (cvtColorBGR2GRAY : Img → Img)
    (stereoSGBMCompute : StereoSGBMConfig → Img → Img → Mat Int)
    (params : List (String × IntParameter)) (modeParam : EnumParameter)
    (left_image right_image : Img) : Option (Mat ℚ) := do
  let cfg ← StereoSGBMMethod.mkConfig params modeParam
  let gray_left := cvtColorBGR2GRAY left_image
  let gray_right := cvtColorBGR2GRAY right_image
  let raw := stereoSGBMCompute cfg gray_left gray_right
  pure { rows := raw.rows, cols := raw.cols,
         data := fun i j => (raw.data i j : ℚ) / 16 }

/-! ## raft_stereo.py -/

/-- The `urls` dictionary of `raft_stereo.py`: serialized model file name
to download URL.  All URLs share this release prefix. -/
def raftUrlPrefix : String :=
  "https://github.com/nburrus/stereodemo/releases/download/v0.1-raft-stereo/models/"

/-- The model file names appearing as keys of the `urls` dictionary. -/
def raftModelNames : List String :=
  [ "raft-stereo-eth3d-cpu-128x160.scripted.pt",
    "raft-stereo-eth3d-cpu-256x320.scripted.pt",
    "raft-stereo-eth3d-cpu-480x640.scripted.pt",
    "raft-stereo-eth3d-cpu-736x1280.scripted.pt",
    "raft-stereo-eth3d-cuda-128x160.scripted.pt",
    "raft-stereo-eth3d-cuda-256x320.scripted.pt",
    "raft-stereo-eth3d-cuda-480x640.scripted.pt",
    "raft-stereo-eth3d-cuda-736x1280.scripted.pt",
    "raft-stereo-fast-cpu-128x160.scripted.pt",
    "raft-stereo-fast-cpu-256x320.scripted.pt",
    "raft-stereo-fast-cpu-480x640.scripted.pt",
    "raft-stereo-fast-cpu-736x1280.scripted.pt",
    "raft-stereo-fast-cuda-128x160.scripted.pt",
    "raft-stereo-fast-cuda-256x320.scripted.pt",
    "raft-stereo-fast-cuda-480x640.scripted.pt",
    "raft-stereo-fast-cuda-736x1280.scripted.pt",
    "raft-stereo-middlebury-cuda-128x160.scripted.pt",
    "raft-stereo-middlebury-cuda-256x320.scripted.pt",
    "raft-stereo-middlebury-cuda-480x640.scripted.pt",
    "raft-stereo-middlebury-cuda-736x1280.scripted.pt" ]

/-- The `urls` dictionary itself. -/
def urls : List (String × String) :=
  raftModelNames.map (fun n => (n, raftUrlPrefix ++ n))

/-- Python dict lookup in `urls` (`urls[name]`, fallible). -/
def lookupUrl (d : List (String × String)) (key : String) : Option String :=
  (d.find? (fun kv => kv.1 = key)).map (·.2)

/-- `Path.name`: the last component of a path. -/
def pathName (p : String) : String :=
  (p.splitOn "/").getLastD p

/-- Modelled from the spec: `utils.download_model` (file `utils.py` is not
among the sources).  Per the spec, the model-weight cache "downloads a
file by URL if absent locally": downloading to `path` makes the file
present in the filesystem.  The filesystem is the list of present paths. -/
def download_model (fs : List String) (_url : String) (path : String) :
    List String :=
  path :: fs

/-- The mutable state `_load_model` touches: the set of present files, the
loaded network (identified by the path `torch.jit.load` read) and
`_loaded_model_path`. -/
structure LoadState where
  fs : List String
  net : Option String
  loaded_model_path : Option String
  deriving Repr, DecidableEq

/-- `RaftStereo._load_model` (lines 119-131 of `raft_stereo.py`): download
the file when it does not exist (a missing URL key raises, modelled as
`none`), assert it exists, record the path and `torch.jit.load` it.  The
Bool records whether a download was performed. -/
def RaftStereo.load_model (st : LoadState) (model_path : String) :
    Option (LoadState × Bool) :=
  let dl : Option (List String × Bool) :=
    if model_path ∈ st.fs then some (st.fs, false)
    else match lookupUrl urls (pathName model_path) with
      | some url => some (download_model st.fs url model_path, true)
      | none => none
  match dl with
  | none => none
  | some (fs2, downloaded) =>
    if model_path ∈ fs2 then
      some ({ fs := fs2, net := some model_path,
              loaded_model_path := some model_path }, downloaded)
    else none

/-- Split a character list on a separator character (the groups between
occurrences of the separator, as Python `str.split`). -/
def splitOnChar (sep : Char) (cs : List Char) : List (List Char) :=
  match cs with
  | [] => [[]]
  | a :: rest =>
    let r := splitOnChar sep rest
    if a = sep then [] :: r
    else
      match r with
      | [] => [[a]]
      | g :: gs => (a :: g) :: gs

/-- The numeric value of a decimal digit character, `none` otherwise. -/
def charDigit (c : Char) : Option Nat :=
  if c.toNat < 48 ∨ 57 < c.toNat then none else some (c.toNat - 48)

/-- Python `int(...)` on a non-empty string of decimal digits. -/
def natOfDigits (cs : List Char) : Option Nat :=
  match cs with
  | [] => none
  | _ =>
    cs.foldl (fun acc c => do pure (10 * (← acc) + (← charDigit c)))
      (some 0)

/-- Splitting a string of the form `"CxR"` on the letter x, then applying
`int(...)` to both parts: the processed size
`(cols, rows)` from the `Shape` parameter value. -/
def parseShape (s : String) : Option (Nat × Nat) :=
  match splitOnChar (Char.ofNat 120) s.toList with
  | [c, r] => do pure (← natOfDigits c, ← natOfDigits r)
  | _ => none

/-- The `Shape` enum parameter of `RaftStereo.reset_defaults`. -/
def raftShapeDefault : EnumParameter :=
  { description := "Processed image size", index := 2,
    values := ["160x128", "320x256", "640x480", "1280x736"] }

/-- `RaftStereo._process_output`: squeeze the network output to 2-D and
negate (`* -1.0`). -/
def RaftStereo.process_output (outputs : Mat ℚ) : Mat ℚ :=
  { outputs with data := fun i j => outputs.data i j * (-1) }

/-- The input left image sizes as seen by the wrapper: `shape[0]` is the
number of rows (height), `shape[1]` the number of columns (width). -/
structure ImgShape where
  rows : Nat
  cols : Nat
  deriving Repr, DecidableEq

/-- The output post-processing of `RaftStereo._compute_disparity`
(lines 100-104 of `raft_stereo.py`), parametric over the raw network
`outputs`: squeeze and negate, then, when the resulting shape differs from
that of the left image, resize to the input resolution with `cv2.resize` and
multiply by `x_scale = input_width / float(cols)` where `cols` is the
processed width parsed from the `Shape` parameter. -/
def RaftStereo.compute_disparity_map (shapeParam : EnumParameter)
    (leftShape : ImgShape) (outputs : Mat ℚ) : Option (Mat ℚ) := do
  let shapeStr ← shapeParam.getValue
  let (cols, _rows) ← parseShape shapeStr
  let disparity_map := RaftStereo.process_output outputs
  if disparity_map.rows = leftShape.rows ∧ disparity_map.cols = leftShape.cols
  then
    pure disparity_map
  else
    let resized := cvResize disparity_map leftShape.cols leftShape.rows
    let x_scale : ℚ := (leftShape.cols : ℚ) / (cols : ℚ)
    pure (resized.scale x_scale)

/-! ## main.py -/

/-- Modelled from the spec: the `Calibration` record of `visualizer.py`
(that file is not among the sources); per the spec it is a "calibration
record of intrinsic/extrinsic parameters" — "intrinsic focal
lengths/principal point plus stereo baseline distance".  `main.py`
constructs it positionally as
`(width, height, fx, fy, cx, cy, baseline)`. -/
structure Calibration where
  width : Nat
  height : Nat
  fx : ℚ
  fy : ℚ
  cx : ℚ
  cy : ℚ
  baseline : ℚ
  deriving Repr, DecidableEq

/-- Modelled from the spec: the `InputPair` value struct of
`visualizer.py` (not among the sources); per the spec, "an image pair"
with its calibration — `main.py` constructs it positionally as
`(left_image, right_image, calib, status)`.  Images are tracked by their
shape. -/
structure InputPair where
  left_image : ImgShape
  right_image : ImgShape
  calibration : Calibration
  status : String
  deriving Repr, DecidableEq

/-- The external world `FileListSource.get_next_pair` consults:
`cv2.imread` (we track the shape of the loaded image), the
sibling path `parent / "stereodemo_calibration.json"` of a left image,
`Path.exists` on it, and `Calibration.from_json` of a file content. -/
structure FSEnv where
  readImage : String → ImgShape
  siblingCalibPath : String → String
  calibExists : String → Bool
  loadCalib : String → Calibration

/-- The `FileListSource` state set up by `__init__` (asserting an
even-length file list, splitting it in halves, index 0). -/
structure FileListSource where
  left_images_path : List String
  right_images_path : List String
  index : Nat
  user_provided_calibration_path : Option String
  deriving Repr, DecidableEq

/-- `FileListSource.__init__`: assert the list has even length (an
assertion failure is `none`), put the first half as left images, the
second as right images, start at index 0. -/
def FileListSource.init (file_list : List String)
    (calibration : Option String) : Option FileListSource :=
  if file_list.length % 2 = 0 then
    let N := file_list.length / 2
    some { left_images_path := file_list.take N,
           right_images_path := file_list.drop N,
           index := 0,
           user_provided_calibration_path := calibration }
  else none

/-- The index actually used by a `get_next_pair` call: the stored index,
after the initial wrap `if self.index >= len(self.left_images_path):
self.index = 0`. -/
def FileListSource.effIndex (s : FileListSource) : Nat :=
  if s.left_images_path.length ≤ s.index then 0 else s.index

/-- The warning printed when no calibration file is found. -/
def noCalibWarning (calibration_path : String) : String :=
  "Warning: no calibration file found " ++ calibration_path ++
    ". Using default calibration, the point cloud will not be accurate."

/-- The fake "reasonable" default calibration built by `get_next_pair`
from the shape of the left image: focal lengths `0.8 * height`, principal
point at the image center, baseline `0.075`. -/
def defaultCalibration (left_image : ImgShape) : Calibration :=
  { width := left_image.cols,
    height := left_image.rows,
    fx := (left_image.rows : ℚ) * (4 / 5),
    fy := (left_image.rows : ℚ) * (4 / 5),
    cx := (left_image.cols : ℚ) / 2,
    cy := (left_image.rows : ℚ) / 2,
    baseline := 3 / 40 }

/-- `FileListSource.get_next_pair` (lines 38-69 of `main.py`): wrap the
index when past the end, load the left image, resolve the calibration
(user-provided path, else the sibling `stereodemo_calibration.json` if it
exists, else print a warning and fall back to the default calibration),
load the right image at the same index, increment the index, and return
the pair.  Out-of-range list indexing is `none`; the `List String` in the
result collects the printed warnings. -/
def FileListSource.get_next_pair (env : FSEnv) (s0 : FileListSource) :
    Option (FileListSource × List String × InputPair) :=
  let s := if s0.left_images_path.length ≤ s0.index then
             { s0 with index := 0 } else s0
  match s.left_images_path.get? s.index with
  | none => none
  | some left_image_path =>
    let left_image := env.readImage left_image_path
    let resolved : Option String × List String :=
      match s.user_provided_calibration_path with
      | none =>
        let cp := env.siblingCalibPath left_image_path
        if env.calibExists cp then (some cp, [])
        else (none, [noCalibWarning cp])
      | some p => (some p, [])
    let calib : Calibration :=
      match resolved.1 with
      | some cp => env.loadCalib cp
      | none => defaultCalibration left_image
    match s.right_images_path.get? s.index with
    | none => none
    | some right_image_path =>
      some ({ s with index := s.index + 1 },
            resolved.2,
            { left_image := left_image,
              right_image := env.readImage right_image_path,
              calibration := calib,
              status := left_image_path ++ " / " ++ right_image_path })

/-- The invariant of a `FileListSource` over `N` image pairs: both path
lists have length `N` and the stored index never exceeds `N`. -/
def FileListSource.inv (N : Nat) (s : FileListSource) : Prop :=
  s.left_images_path.length = N ∧ s.right_images_path.length = N ∧
    s.index ≤ N

/-- The command-line arguments consumed by `main` (after `parse_args`). -/
structure Args where
  oak : Bool
  images : Option (List String)
  calibration : Option String

/-- What `main` does with the arguments before the frame loop: either it
exits (printing a message, with an exit status) without building any
visualizer, or it builds a source and proceeds to construct the
visualizer and enter the loop. -/
inductive MainOutcome where
  | exited (printed : String) (status : Nat) : MainOutcome
  | runLoopWithFiles (source : FileListSource) : MainOutcome
  | runLoopWithOak : MainOutcome
  deriving Repr, DecidableEq

/-- The source-selection step of `main` (lines 80-88 of `main.py`):
file source when `--images` was given (its assertion failure is `none`),
else the oak camera when `--oak` was given, else print
"You need to specify --oak or --images" and `sys.exit(1)`. -/
def mainSelectSource (args : Args) : Option MainOutcome :=
  match args.images with
  | some file_list =>
    (FileListSource.init file_list args.calibration).map
      MainOutcome.runLoopWithFiles
  | none =>
    if args.oak then some MainOutcome.runLoopWithOak
    else some (MainOutcome.exited "You need to specify --oak or --images" 1)

/-- The frame-pacing decision at the end of each loop iteration
(lines 99-102 of `main.py`): `time_to_sleep = 1/30.0 - elapsed`; call
`time.sleep(time_to_sleep)` only when it is positive. -/
def frameSleep (elapsed : ℚ) : Option ℚ :=
  let time_to_sleep : ℚ := 1 / 30 - elapsed
  if 0 < time_to_sleep then some time_to_sleep else none

/-! ## Theorems -/

/-- `odd_only` always returns an odd integer. -/
theorem odd_only_odd (x : Int) : odd_only x % 2 = 1 := by
  unfold odd_only
  split <;> omega

/-- `odd_only` bumps an even input by one. -/
theorem odd_only_of_even (x : Int) (h : x % 2 = 0) : odd_only x = x + 1 := by
  unfold odd_only
  split <;> omega

/-- `multiple_of_16` returns a multiple of 16. -/
theorem multiple_of_16_dvd (x : Int) : multiple_of_16 x % 16 = 0 := by
  unfold multiple_of_16
  rw [max_def]
  split <;> omega

/-- `multiple_of_16` returns at least 16. -/
theorem multiple_of_16_ge (x : Int) : 16 ≤ multiple_of_16 x := by
  unfold multiple_of_16
  rw [max_def]
  split <;> omega

/-- C8: for every integer `x` passed through `IntParameter.set_value`, the
StereoBM parameters keep their validity invariants: the `Block Size` and
`PreFilterSize` entries of the default parameter dictionary carry the
`odd_only` validator so their stored value stays odd (an even `x` becomes
`x + 1`), and the `Num Disparities` entry carries `multiple_of_16` so its
stored value is a multiple of 16, at least 16, obtained by flooring `x` to
a multiple of 16 and clamping below by 16. -/
theorem set_value_keeps_stereoBM_invariants (x : Int) :
    lookupParam stereoBMDefaults "Block Size" = some bmBlockSizeParam ∧
    lookupParam stereoBMDefaults "PreFilterSize" = some bmPreFilterSizeParam ∧
    lookupParam stereoBMDefaults "Num Disparities" =
      some bmNumDisparitiesParam ∧
    (bmBlockSizeParam.set_value x).value % 2 = 1 ∧
    (x % 2 = 0 → (bmBlockSizeParam.set_value x).value = x + 1) ∧
    (x % 2 = 1 → (bmBlockSizeParam.set_value x).value = x) ∧
    (bmPreFilterSizeParam.set_value x).value % 2 = 1 ∧
    (x % 2 = 0 → (bmPreFilterSizeParam.set_value x).value = x + 1) ∧
    (bmNumDisparitiesParam.set_value x).value % 16 = 0 ∧
    16 ≤ (bmNumDisparitiesParam.set_value x).value ∧
    (bmNumDisparitiesParam.set_value x).value = max 16 (x / 16 * 16) := by
  refine ⟨rfl, rfl, rfl, ?_, ?_, ?_, ?_, ?_, ?_, ?_, ?_⟩ <;>
    simp only [IntParameter.set_value, bmBlockSizeParam,
      bmPreFilterSizeParam, bmNumDisparitiesParam]
  · exact odd_only_odd x
  · exact odd_only_of_even x
  · intro h
    unfold odd_only
    simp [h]
  · exact odd_only_odd x
  · exact odd_only_of_even x
  · exact multiple_of_16_dvd x
  · exact multiple_of_16_ge x
  · rfl

/-- Witness for C8 at the even input `x = 10`. -/
theorem set_value_keeps_stereoBM_invariants_witness :
    (10 : Int) % 2 = 0 ∧
    (bmBlockSizeParam.set_value 10).value = 11 ∧
    (bmPreFilterSizeParam.set_value 10).value = 11 ∧
    (bmNumDisparitiesParam.set_value 10).value = 16 := by
  have h := set_value_keeps_stereoBM_invariants 10
  refine ⟨by decide, h.2.2.2.2.1 (by decide), h.2.2.2.2.2.2.2.1 (by decide), ?_⟩
  have h16 := h.2.2.2.2.2.2.2.2.2.2
  rw [h16]
  decide

/-- C10: `StereoBMMethod.compute_disparity` never hands the block matcher
an even block size: whatever integer is stored under `Block Size` in the
parameter dictionary, the configuration it builds carries an odd
`blockSize` (an even stored value is incremented by one first). -/
theorem bm_config_blockSize_odd (params : List (String × IntParameter))
    (cfg : StereoBMConfig)
    (h : StereoBMMethod.mkConfig params = some cfg) :
    cfg.blockSize % 2 = 1 := by
  simp only [StereoBMMethod.mkConfig, Option.bind_eq_bind,
    Option.bind_eq_some, Option.pure_def, Option.some.injEq] at h
  obtain ⟨pBS, _, pND, _, pTT, _, pUR, _, pSWS, _, pSR, _, pD12, _, pPFC, _,
    pPFS, _, hcfg⟩ := h
  subst hcfg
  simp only
  split <;> omega

/-- A parameter dictionary whose stored `Block Size` is even (10), set
without going through the validator. -/
def evenBlockSizeParams : List (String × IntParameter) :=
  stereoBMDefaults.map (fun kv =>
    if kv.1 = "Block Size" then (kv.1, { kv.2 with value := 10 }) else kv)

/-- The configuration built from `evenBlockSizeParams`. -/
def evenBlockSizeConfig : StereoBMConfig :=
  { numDisparities := 64, blockSize := 11, textureThreshold := 10,
    uniquenessRatio := 15, speckleWindowSize := 100, speckleRange := 32,
    disp12MaxDiff := 1, preFilterCap := 31, preFilterSize := 9 }

/-- Witness for C10: with the stored even block size 10, the matcher is
created with the odd block size 11. -/
theorem bm_config_blockSize_odd_witness :
    StereoBMMethod.mkConfig evenBlockSizeParams = some evenBlockSizeConfig ∧
    evenBlockSizeConfig.blockSize % 2 = 1 :=
  ⟨rfl, bm_config_blockSize_odd evenBlockSizeParams evenBlockSizeConfig rfl⟩

/-- C4: `StereoBMMethod.compute_disparity` configures exactly the nine
numeric knobs of `StereoBMConfig` on the block matcher — number of
disparities, block size, texture threshold, uniqueness ratio, speckle
window size, speckle range, left-right-check max difference, pre-filter
cap and pre-filter size — each taken from the current parameter
dictionary (the block size being made odd first). -/
theorem bm_configures_nine_knobs
    (params : List (String × IntParameter))
    (pND pBS pTT pUR pSWS pSR pD12 pPFC pPFS : IntParameter)
    (hND : lookupParam params "Num Disparities" = some pND)
    (hBS : lookupParam params "Block Size" = some pBS)
    (hTT : lookupParam params "TextureThreshold" = some pTT)
    (hUR : lookupParam params "Uniqueness Ratio" = some pUR)
    (hSWS : lookupParam params "SpeckleWindowSize" = some pSWS)
    (hSR : lookupParam params "SpeckleRange" = some pSR)
    (hD12 : lookupParam params "Disp12MaxDiff" = some pD12)
    (hPFC : lookupParam params "PreFilterCap" = some pPFC)
    (hPFS : lookupParam params "PreFilterSize" = some pPFS) :
    StereoBMMethod.mkConfig params = some
      { numDisparities := pND.value,
        blockSize :=
          if pBS.value % 2 = 0 then pBS.value + 1 else pBS.value,
        textureThreshold := pTT.value,
        uniquenessRatio := pUR.value,
        speckleWindowSize := pSWS.value,
        speckleRange := pSR.value,
        disp12MaxDiff := pD12.value,
        preFilterCap := pPFC.value,
        preFilterSize := pPFS.value } := by
  simp only [StereoBMMethod.mkConfig, hND, hBS, hTT, hUR, hSWS, hSR, hD12,
    hPFC, hPFS, Option.bind_eq_bind, Option.some_bind, Option.pure_def]

/-- Witness for C4 at the default StereoBM parameter dictionary. -/
theorem bm_configures_nine_knobs_witness :
    StereoBMMethod.mkConfig stereoBMDefaults = some
      { numDisparities := bmNumDisparitiesParam.value,
        blockSize :=
          if bmBlockSizeParam.value % 2 = 0 then bmBlockSizeParam.value + 1
          else bmBlockSizeParam.value,
        textureThreshold := 10,
        uniquenessRatio := 15,
        speckleWindowSize := 100,
        speckleRange := 32,
        disp12MaxDiff := 1,
        preFilterCap := 31,
        preFilterSize := bmPreFilterSizeParam.value } :=
  bm_configures_nine_knobs stereoBMDefaults
    bmNumDisparitiesParam bmBlockSizeParam
    { description := "Minimum SAD to consider the texture sufficient",
      value := 10, min := 0, max := 100 }
    { description := "How unique the match each for each pixel",
      value := 15, min := 0, max := 100 }
    { description := "Speckle window size in pixels (filter small objects). 0 to disable.",
      value := 100, min := 0, max := 1000 }
    { description := "Speckle range (max diff within a window)",
      value := 32, min := 0, max := 64 }
    { description := "Maximum allowable difference in the right-left check",
      value := 1, min := 0, max := 64 }
    { description := "Max pre-filter output", value := 31, min := 1,
      max := 63 }
    bmPreFilterSizeParam
    rfl rfl rfl rfl rfl rfl rfl rfl rfl

/-- C1: `StereoBMMethod.compute_disparity` and
`StereoSGBMMethod.compute_disparity` return as disparity map exactly the
raw integer output of the wrapped block matcher (invoked on the
grayscale-converted images with the built configuration), divided
elementwise by the fixed sub-pixel scale factor 16, preserving its
shape. -/
theorem compute_disparity_divides_by_16 {Img : Type}
    (cvtColorBGR2GRAY : Img → Img)
    (bmCompute : StereoBMConfig → Img → Img → Mat Int)
    (sgbmCompute : StereoSGBMConfig → Img → Img → Mat Int)
    (bmParams sgbmParams : List (String × IntParameter))
    (modeParam : EnumParameter)
    (l r : Img) (bmCfg : StereoBMConfig) (sgbmCfg : StereoSGBMConfig)
    (d e : Mat ℚ)
    (hbmCfg : StereoBMMethod.mkConfig bmParams = some bmCfg)
    (hsgCfg : StereoSGBMMethod.mkConfig sgbmParams modeParam = some sgbmCfg)
    (hbm : StereoBMMethod.compute_disparity cvtColorBGR2GRAY bmCompute
      bmParams l r = some d)
    (hsg : StereoSGBMMethod.compute_disparity cvtColorBGR2GRAY sgbmCompute
      sgbmParams modeParam l r = some e) :
    (d.rows =
        (bmCompute bmCfg (cvtColorBGR2GRAY l) (cvtColorBGR2GRAY r)).rows ∧
     d.cols =
        (bmCompute bmCfg (cvtColorBGR2GRAY l) (cvtColorBGR2GRAY r)).cols ∧
     ∀ i j, d.data i j =
        ((bmCompute bmCfg (cvtColorBGR2GRAY l)
          (cvtColorBGR2GRAY r)).data i j : ℚ) / 16) ∧
    (e.rows =
        (sgbmCompute sgbmCfg (cvtColorBGR2GRAY l) (cvtColorBGR2GRAY r)).rows ∧
     e.cols =
        (sgbmCompute sgbmCfg (cvtColorBGR2GRAY l) (cvtColorBGR2GRAY r)).cols ∧
     ∀ i j, e.data i j =
        ((sgbmCompute sgbmCfg (cvtColorBGR2GRAY l)
          (cvtColorBGR2GRAY r)).data i j : ℚ) / 16) := by
  simp only [StereoBMMethod.compute_disparity, hbmCfg,
    Option.bind_eq_bind, Option.some_bind, Option.pure_def,
    Option.some.injEq] at hbm
  simp only [StereoSGBMMethod.compute_disparity, hsgCfg,
    Option.bind_eq_bind, Option.some_bind, Option.pure_def,
    Option.some.injEq] at hsg
  subst hbm
  subst hsg
  exact ⟨⟨rfl, rfl, fun i j => rfl⟩, ⟨rfl, rfl, fun i j => rfl⟩⟩

/-- A concrete raw matcher output: a 2x2 map whose every raw value is 32
(that is, 2 pixels of disparity in fixed-point). -/
def constRawMat : Mat Int :=
  { rows := 2, cols := 2, data := fun _ _ => 32 }

/-- A concrete block matcher ignoring its inputs (images are `Nat`). -/
def constBMCompute : StereoBMConfig → Nat → Nat → Mat Int :=
  fun _ _ _ => constRawMat

/-- A concrete semi-global matcher ignoring its inputs. -/
def constSGBMCompute : StereoSGBMConfig → Nat → Nat → Mat Int :=
  fun _ _ _ => constRawMat

/-- The converted disparity map for `constRawMat`. -/
def constScaledMat : Mat ℚ :=
  { rows := 2, cols := 2, data := fun i j => (constRawMat.data i j : ℚ) / 16 }

/-- The default StereoBM configuration, as built from `stereoBMDefaults`. -/
def defaultBMConfig : StereoBMConfig :=
  { numDisparities := 64, blockSize := 9, textureThreshold := 10,
    uniquenessRatio := 15, speckleWindowSize := 100, speckleRange := 32,
    disp12MaxDiff := 1, preFilterCap := 31, preFilterSize := 9 }

/-- The default StereoSGBM configuration, as built from
`stereoSGBMDefaults` and `stereoSGBMModeDefault`. -/
def defaultSGBMConfig : StereoSGBMConfig :=
  { numDisparities := 64, blockSize := 3, mode := 0, p1 := 72, p2 := 288,
    preFilterCap := 63, uniquenessRatio := 10, speckleWindowSize := 100,
    speckleRange := 32, disp12MaxDiff := 1 }

/-- Witness for C1: with a matcher returning raw value 32 everywhere, both
wrappers return 32/16 = 2 pixels of disparity. -/
theorem compute_disparity_divides_by_16_witness :
    StereoBMMethod.compute_disparity (fun img : Nat => img) constBMCompute
      stereoBMDefaults 0 0 = some constScaledMat ∧
    StereoSGBMMethod.compute_disparity (fun img : Nat => img)
      constSGBMCompute stereoSGBMDefaults stereoSGBMModeDefault 0 0 =
      some constScaledMat ∧
    constScaledMat.data 0 0 = ((constRawMat.data 0 0 : ℚ)) / 16 ∧
    constScaledMat.data 0 0 = 2 := by
  refine ⟨rfl, rfl, ?_, by norm_num [constScaledMat, constRawMat]⟩
  exact (compute_disparity_divides_by_16 (fun img : Nat => img)
    constBMCompute constSGBMCompute stereoBMDefaults stereoSGBMDefaults
    stereoSGBMModeDefault 0 0 defaultBMConfig defaultSGBMConfig
    constScaledMat constScaledMat rfl rfl rfl rfl).1.2.2 0 0

/-- C7: in every iteration of the main frame loop, the program sleeps for
`1/30 - elapsed` seconds exactly when that difference is positive, and
does not call sleep at all when the iteration already took at least `1/30`
seconds. -/
theorem frameSleep_paces_to_30fps (elapsed : ℚ) :
    (elapsed < 1 / 30 →
      frameSleep elapsed = some (1 / 30 - elapsed) ∧
        0 < 1 / 30 - elapsed) ∧
    (1 / 30 ≤ elapsed → frameSleep elapsed = none) := by
  unfold frameSleep
  constructor
  · intro h
    rw [if_pos (by linarith)]
    exact ⟨rfl, by linarith⟩
  · intro h
    rw [if_neg (by linarith)]

/-- Witness for C7 at `elapsed = 1/60` (sleeps 1/60) and at
`elapsed = 1/30` (does not sleep). -/
theorem frameSleep_paces_to_30fps_witness :
    frameSleep (1 / 60) = some (1 / 30 - 1 / 60) ∧
    frameSleep (1 / 30) = none :=
  ⟨((frameSleep_paces_to_30fps (1 / 60)).1 (by norm_num)).1,
    (frameSleep_paces_to_30fps (1 / 30)).2 le_rfl⟩

/-- C6: when the command line selects neither `--images` nor `--oak`,
`main` prints "You need to specify --oak or --images" and exits with
status 1, without constructing a file or camera source (and hence without
constructing a visualizer or entering the frame loop). -/
theorem main_without_source_exits (args : Args)
    (himages : args.images = none) (hoak : args.oak = false) :
    mainSelectSource args =
      some (MainOutcome.exited "You need to specify --oak or --images" 1) ∧
    (∀ s, mainSelectSource args ≠ some (MainOutcome.runLoopWithFiles s)) ∧
    mainSelectSource args ≠ some MainOutcome.runLoopWithOak := by
  unfold mainSelectSource
  rw [himages, hoak]
  simp

/-- Witness for C6 at the concrete argument record with no images and no
oak flag. -/
theorem main_without_source_exits_witness :
    mainSelectSource { oak := false, images := none, calibration := none } =
      some (MainOutcome.exited "You need to specify --oak or --images" 1) :=
  (main_without_source_exits
    { oak := false, images := none, calibration := none } rfl rfl).1

/-- C3: whenever `RaftStereo._load_model` completes, it performed a
download if and only if the model file was absent from the local models
directory; an already-present file is never re-downloaded (the filesystem
is left unchanged) and the cached file is the one loaded into the
network. -/
theorem load_model_downloads_iff_absent (st : LoadState)
    (model_path : String) (st2 : LoadState) (downloaded : Bool)
    (h : RaftStereo.load_model st model_path = some (st2, downloaded)) :
    (downloaded = true ↔ model_path ∉ st.fs) ∧
    st2.net = some model_path ∧
    st2.loaded_model_path = some model_path ∧
    (model_path ∈ st.fs → st2.fs = st.fs ∧ downloaded = false) := by
  unfold RaftStereo.load_model at h
  by_cases hc : model_path ∈ st.fs
  · simp only [if_pos hc, Option.some.injEq, Prod.mk.injEq] at h
    obtain ⟨h1, h2⟩ := h
    subst h1
    subst h2
    simp [hc]
  · rw [if_neg hc] at h
    cases hu : lookupUrl urls (pathName model_path) with
    | none =>
      rw [hu] at h
      simp at h
    | some url =>
      rw [hu] at h
      simp only [download_model,
        if_pos (List.mem_cons_self model_path st.fs),
        Option.some.injEq, Prod.mk.injEq] at h
      obtain ⟨h1, h2⟩ := h
      subst h1
      subst h2
      simp [hc]

/-- The load state for the C3 witness: the eth3d cpu 128x160 model file is
already in the cache. -/
def cachedState : LoadState :=
  { fs := ["models/raft-stereo-eth3d-cpu-128x160.scripted.pt"],
    net := none, loaded_model_path := none }

/-- Witness for C3: loading an already-cached model performs no download,
leaves the filesystem unchanged and loads the cached file. -/
theorem load_model_downloads_iff_absent_witness :
    RaftStereo.load_model cachedState
      "models/raft-stereo-eth3d-cpu-128x160.scripted.pt" =
      some ({ fs := ["models/raft-stereo-eth3d-cpu-128x160.scripted.pt"],
              net := some "models/raft-stereo-eth3d-cpu-128x160.scripted.pt",
              loaded_model_path :=
                some "models/raft-stereo-eth3d-cpu-128x160.scripted.pt" },
            false) ∧
    ((false = true) ↔
      "models/raft-stereo-eth3d-cpu-128x160.scripted.pt" ∉
        cachedState.fs) := by
  refine ⟨by decide, ?_⟩
  exact (load_model_downloads_iff_absent cachedState
    "models/raft-stereo-eth3d-cpu-128x160.scripted.pt"
    { fs := ["models/raft-stereo-eth3d-cpu-128x160.scripted.pt"],
      net := some "models/raft-stereo-eth3d-cpu-128x160.scripted.pt",
      loaded_model_path :=
        some "models/raft-stereo-eth3d-cpu-128x160.scripted.pt" }
    false (by decide)).1

/-- C2: the disparity map returned by `RaftStereo._compute_disparity` has
the height and width of the input left image; when the (negated, squeezed)
network output has a different shape, it is resized with `cv2.resize` to
the input resolution and each value is multiplied by the ratio of the
input width to the processed (network) width `cols` parsed from the
`Shape` parameter. -/
theorem raft_output_matches_input_resolution
    (shapeParam : EnumParameter) (leftShape : ImgShape) (outputs : Mat ℚ)
    (shapeStr : String) (cols rows2 : Nat) (d : Mat ℚ)
    (hstr : shapeParam.getValue = some shapeStr)
    (hparse : parseShape shapeStr = some (cols, rows2))
    (h : RaftStereo.compute_disparity_map shapeParam leftShape outputs =
      some d) :
    d.rows = leftShape.rows ∧ d.cols = leftShape.cols ∧
    (¬ ((RaftStereo.process_output outputs).rows = leftShape.rows ∧
        (RaftStereo.process_output outputs).cols = leftShape.cols) →
      ∀ i j, d.data i j =
        (cvResize (RaftStereo.process_output outputs) leftShape.cols
          leftShape.rows).data i j *
          ((leftShape.cols : ℚ) / (cols : ℚ))) := by
  unfold RaftStereo.compute_disparity_map at h
  rw [hstr] at h
  simp only [Option.bind_eq_bind, Option.some_bind] at h
  rw [hparse] at h
  simp only [Option.some_bind] at h
  split at h
  case isTrue hcond =>
    simp only [Option.pure_def, Option.some.injEq] at h
    subst h
    exact ⟨hcond.1, hcond.2, fun hn => absurd hcond hn⟩
  case isFalse hcond =>
    simp only [Option.pure_def, Option.some.injEq] at h
    subst h
    exact ⟨rfl, rfl, fun _ i j => rfl⟩

/-- A concrete 640x480 network output for the C2 witness. -/
def raftOutSmall : Mat ℚ :=
  { rows := 480, cols := 640, data := fun _ _ => -3 }

/-- A concrete 1280x720 input left image shape for the C2 witness. -/
def raftLeftShape : ImgShape :=
  { rows := 720, cols := 1280 }

/-- The expected resized and rescaled disparity map of the C2 witness. -/
def raftScaled : Mat ℚ :=
  (cvResize (RaftStereo.process_output raftOutSmall) 1280 720).scale
    ((1280 : ℚ) / (640 : ℚ))

/-- Witness for C2: a 640x480 network output against a 1280x720 left
image is resized to 1280x720 and multiplied by 1280/640. -/
theorem raft_output_matches_input_resolution_witness :
    RaftStereo.compute_disparity_map raftShapeDefault raftLeftShape
      raftOutSmall = some raftScaled ∧
    raftScaled.rows = 720 ∧ raftScaled.cols = 1280 ∧
    raftScaled.data 0 0 =
      (cvResize (RaftStereo.process_output raftOutSmall) 1280 720).data 0 0 *
        ((1280 : ℚ) / (640 : ℚ)) ∧
    raftScaled.data 0 0 = 6 := by
  have h := raft_output_matches_input_resolution raftShapeDefault
    raftLeftShape raftOutSmall "640x480" 640 480 raftScaled rfl rfl rfl
  refine ⟨rfl, h.1, h.2.1,
    h.2.2 (by norm_num [RaftStereo.process_output, raftOutSmall,
      raftLeftShape]) 0 0, ?_⟩
  norm_num [raftScaled, Mat.scale, cvResize, RaftStereo.process_output,
    raftOutSmall]

/-- C5: when the user supplied no calibration path and no
`stereodemo_calibration.json` exists next to the left image,
`get_next_pair` does not fail: it prints the warning and returns a pair
carrying the default calibration, whose image size is the size of the
left image, whose focal lengths are 0.8 times the image height, whose
principal point is the image center, and whose baseline is 0.075. -/
theorem get_next_pair_default_calibration
    (env : FSEnv) (s : FileListSource) (lp rp : String)
    (hlp : s.left_images_path.get? (FileListSource.effIndex s) = some lp)
    (hrp : s.right_images_path.get? (FileListSource.effIndex s) = some rp)
    (hcal : s.user_provided_calibration_path = none)
    (hex : env.calibExists (env.siblingCalibPath lp) = false) :
    FileListSource.get_next_pair env s =
      some ({ s with index := FileListSource.effIndex s + 1 },
        [noCalibWarning (env.siblingCalibPath lp)],
        { left_image := env.readImage lp,
          right_image := env.readImage rp,
          calibration :=
            { width := (env.readImage lp).cols,
              height := (env.readImage lp).rows,
              fx := ((env.readImage lp).rows : ℚ) * (4 / 5),
              fy := ((env.readImage lp).rows : ℚ) * (4 / 5),
              cx := ((env.readImage lp).cols : ℚ) / 2,
              cy := ((env.readImage lp).rows : ℚ) / 2,
              baseline := 3 / 40 },
          status := lp ++ " / " ++ rp }) := by
  unfold FileListSource.get_next_pair
  unfold FileListSource.effIndex at hlp hrp ⊢
  by_cases hw : s.left_images_path.length ≤ s.index
  · rw [if_pos hw] at hlp hrp ⊢
    simp only [if_pos hw, hlp, hcal, hex, Bool.false_eq_true, if_false,
      hrp]
    rfl
  · rw [if_neg hw] at hlp hrp ⊢
    simp only [if_neg hw, hlp, hcal, hex, Bool.false_eq_true, if_false,
      hrp]
    rfl

/-- A concrete environment for witnesses: every image loads with shape
480x640, no calibration file exists anywhere, and the sibling calibration
path is obtained by appending the fixed file name. -/
def witnessEnv : FSEnv :=
  { readImage := fun _ => { rows := 480, cols := 640 },
    siblingCalibPath := fun p => p ++ "/stereodemo_calibration.json",
    calibExists := fun _ => false,
    loadCalib := fun _ => defaultCalibration { rows := 480, cols := 640 } }

/-- A one-pair file source for witnesses. -/
def pairSource : FileListSource :=
  { left_images_path := ["l.png"], right_images_path := ["r.png"],
    index := 0, user_provided_calibration_path := none }

/-- Witness for C5: the single-pair source with no calibration anywhere
yields the default calibration (fx = fy = 384 = 0.8 * 480, principal
point (320, 240), baseline 0.075). -/
theorem get_next_pair_default_calibration_witness :
    FileListSource.get_next_pair witnessEnv pairSource =
      some ({ pairSource with index := FileListSource.effIndex pairSource + 1 },
        [noCalibWarning (witnessEnv.siblingCalibPath "l.png")],
        { left_image := witnessEnv.readImage "l.png",
          right_image := witnessEnv.readImage "r.png",
          calibration :=
            { width := (witnessEnv.readImage "l.png").cols,
              height := (witnessEnv.readImage "l.png").rows,
              fx := ((witnessEnv.readImage "l.png").rows : ℚ) * (4 / 5),
              fy := ((witnessEnv.readImage "l.png").rows : ℚ) * (4 / 5),
              cx := ((witnessEnv.readImage "l.png").cols : ℚ) / 2,
              cy := ((witnessEnv.readImage "l.png").rows : ℚ) / 2,
              baseline := 3 / 40 },
          status := "l.png" ++ " / " ++ "r.png" }) ∧
    ((witnessEnv.readImage "l.png").rows : ℚ) * (4 / 5) = 384 ∧
    ((witnessEnv.readImage "l.png").cols : ℚ) / 2 = 320 ∧
    ((witnessEnv.readImage "l.png").rows : ℚ) / 2 = 240 := by
  refine ⟨get_next_pair_default_calibration witnessEnv pairSource
    "l.png" "r.png" rfl rfl rfl rfl, ?_, ?_, ?_⟩ <;>
    norm_num [witnessEnv]

/-- Counterexample to C9 as stated: the empty list is an even-length list
of 2N file paths with N = 0, the constructor accepts it, and the very
first `get_next_pair` call indexes out of range (the Python code raises
an IndexError, modelled as `none`) instead of returning a pair. -/
theorem fileListSource_empty_list_counterexample :
    FileListSource.init [] none =
      some { left_images_path := [], right_images_path := [], index := 0,
             user_provided_calibration_path := none } ∧
    FileListSource.get_next_pair witnessEnv
      { left_images_path := [], right_images_path := [], index := 0,
        user_provided_calibration_path := none } = none :=
  ⟨rfl, rfl⟩

/-- C9 (amended to N ≥ 1): a `FileListSource` built from a list of 2N
paths (N ≥ 1) satisfies the invariant `inv N` with index 0, and from any
state satisfying `inv N` the call uses an index below N (the stored index,
wrapped to 0 exactly when it has reached N), succeeds, returns the left
and right images at that same position, leaves the path lists unchanged
and restores the invariant with the index in [1, N] — so the source
cycles through the N pairs indefinitely without indexing out of range. -/
theorem fileListSource_cycles_in_range (N : Nat) (hN : 0 < N) :
    (∀ (fl : List String) (c : Option String) (s0 : FileListSource),
      fl.length = 2 * N → FileListSource.init fl c = some s0 →
      FileListSource.inv N s0 ∧ s0.index = 0) ∧
    (∀ (env : FSEnv) (s : FileListSource), FileListSource.inv N s →
      FileListSource.effIndex s < N ∧
      (N ≤ s.index → FileListSource.effIndex s = 0) ∧
      (s.index < N → FileListSource.effIndex s = s.index) ∧
      ∃ warnings pair,
        FileListSource.get_next_pair env s =
          some ({ s with index := FileListSource.effIndex s + 1 },
            warnings, pair) ∧
        FileListSource.inv N
          { s with index := FileListSource.effIndex s + 1 } ∧
        1 ≤ FileListSource.effIndex s + 1 ∧
        FileListSource.effIndex s + 1 ≤ N ∧
        ∃ lp rp,
          s.left_images_path.get? (FileListSource.effIndex s) = some lp ∧
          s.right_images_path.get? (FileListSource.effIndex s) = some rp ∧
          pair.left_image = env.readImage lp ∧
          pair.right_image = env.readImage rp) := by
  constructor
  · intro fl c s0 hfl hinit
    unfold FileListSource.init at hinit
    rw [if_pos (by omega)] at hinit
    obtain rfl := Option.some.inj hinit
    refine ⟨⟨?_, ?_, ?_⟩, rfl⟩
    · simp only [List.length_take, hfl]
      omega
    · simp only [List.length_drop, hfl]
      omega
    · exact Nat.zero_le N
  · intro env s hinv
    obtain ⟨hl, hr, hle⟩ := hinv
    have hei : FileListSource.effIndex s < N := by
      unfold FileListSource.effIndex
      rw [hl]
      split <;> omega
    have heiN : N ≤ s.index → FileListSource.effIndex s = 0 := by
      intro h
      unfold FileListSource.effIndex
      rw [hl, if_pos h]
    have heiid : s.index < N → FileListSource.effIndex s = s.index := by
      intro h
      unfold FileListSource.effIndex
      rw [hl, if_neg (by omega)]
    refine ⟨hei, heiN, heiid, ?_⟩
    have hlplt : FileListSource.effIndex s < s.left_images_path.length := by
      omega
    have hrplt : FileListSource.effIndex s < s.right_images_path.length := by
      omega
    obtain ⟨lp, hlp⟩ : ∃ lp,
        s.left_images_path.get? (FileListSource.effIndex s) = some lp :=
      ⟨_, List.get?_eq_get hlplt⟩
    obtain ⟨rp, hrp⟩ : ∃ rp,
        s.right_images_path.get? (FileListSource.effIndex s) = some rp :=
      ⟨_, List.get?_eq_get hrplt⟩
    unfold FileListSource.get_next_pair
    unfold FileListSource.effIndex at hlp hrp ⊢
    by_cases hw : s.left_images_path.length ≤ s.index
    · simp only [if_pos hw] at hlp hrp ⊢
      simp only [hlp, hrp]
      exact ⟨_, _, rfl, ⟨hl, hr, by dsimp only; omega⟩, by omega,
        by omega, lp, rp, rfl, rfl, rfl, rfl⟩
    · simp only [if_neg hw] at hlp hrp ⊢
      simp only [hlp, hrp]
      exact ⟨_, _, rfl, ⟨hl, hr, by dsimp only; omega⟩, by omega,
        by omega, lp, rp, rfl, rfl, rfl, rfl⟩

/-- The file source after one call: index 1 of 1, about to wrap. -/
def wrappedSource : FileListSource :=
  { left_images_path := ["l.png"], right_images_path := ["r.png"],
    index := 1, user_provided_calibration_path := none }

/-- Witness for the amended C9 at N = 1, on the state whose index has
reached N = 1: the next call wraps to position 0 and succeeds. -/
theorem fileListSource_cycles_in_range_witness :
    FileListSource.inv 1 wrappedSource ∧
    FileListSource.effIndex wrappedSource = 0 ∧
    FileListSource.effIndex wrappedSource < 1 := by
  have hinv : FileListSource.inv 1 wrappedSource := ⟨rfl, rfl, Nat.le_refl 1⟩
  have h := (fileListSource_cycles_in_range 1 Nat.one_pos).2 witnessEnv
    wrappedSource hinv
  exact ⟨hinv, h.2.1 (Nat.le_refl 1), h.1⟩

end Stereodemo
